import Mathlib

/-!
Verification of the trade-validation and order-execution core of a crypto
trading application, embedded shallowly from the TypeScript sources
`src/services/tradeValidator.ts` and `src/services/krakenService.ts`.

Modelling conventions:
- JavaScript numbers are modelled as rationals; decimal balance strings are
  modelled by their parsed rational values (string parsing itself is outside
  the model, except that a missing entry parses as 0 exactly as the source
  writes `parseFloat(map[k] || "0")`).
- JavaScript objects used as string-keyed dictionaries are modelled as
  association lists with first-match lookup.
- The JavaScript `||` default idiom on numbers treats 0 as falsy; `jsOrQ`
  reproduces that.
- String methods (`toUpperCase`, `split`, `endsWith`, `slice`, `includes`)
  are modelled by character-list functions so that they evaluate inside Lean.
- Wall-clock instants (`Date.now()`, milliseconds) are natural numbers; the
  remote gateway, the balance endpoint and the price feed are parameters of
  each operation that performs a call, carrying the response the call would
  produce.
-/

namespace CryptoTrading

/-- Dictionary with rational values, modelling a JS object keyed by strings. -/
abbrev Table := List (String × ℚ)

/-- First-match lookup in a dictionary, `none` when the key is absent. -/
def lookupT : Table → String → Option ℚ
  | [], _ => none
  | (k2, v) :: rest, k => if k = k2 then some v else lookupT rest k

/-- JS `v || d` on an optional number: absence and 0 (both falsy) give `d`. -/
def jsOrQ (v : Option ℚ) (d : ℚ) : ℚ :=
  match v with
  | some x => if x = 0 then d else x
  | none => d

/-- JS `v || d` on a string: only the empty string is falsy. -/
def jsOrS (v d : String) : String := if v = "" then d else v

/-- Character-level model of `String.prototype.toUpperCase` for ASCII data. -/
def strUpper (s : String) : String := ⟨s.data.map Char.toUpper⟩

/-- Character-level model of `String.prototype.split(sep)` for a one-character
separator: splits the character list at every occurrence of `sep`. -/
def splitOnChar (sep : Char) : List Char → List (List Char)
  | [] => [[]]
  | c :: cs =>
    let rest := splitOnChar sep cs
    if c = sep then [] :: rest
    else
      match rest with
      | [] => [[c]]
      | piece :: more => (c :: piece) :: more

/-- Reversal of a character list (spelled out so it evaluates by rewriting). -/
def reverseChars : List Char → List Char
  | [] => []
  | c :: cs => reverseChars cs ++ [c]

/-- Character-by-character test that the first list starts the second. -/
def isPrefixOfChars : List Char → List Char → Bool
  | [], _ => true
  | _ :: _, [] => false
  | x :: xs, y :: ys => if x = y then isPrefixOfChars xs ys else false

/-- Character-level model of `String.prototype.endsWith`. -/
def strEndsWith (s suffix : String) : Bool :=
  isPrefixOfChars (reverseChars suffix.data) (reverseChars s.data)

/-- Character-level model of `String.prototype.slice(0, -n)`. -/
def strDropRight (s : String) (n : Nat) : String :=
  ⟨s.data.take (s.data.length - n)⟩

/-- Membership of a character in a character list. -/
def charMem (c : Char) : List Char → Bool
  | [] => false
  | x :: xs => if x = c then true else charMem c xs

/-- Character-level model of `String.prototype.includes` for one character. -/
def strContainsChar (s : String) (c : Char) : Bool := charMem c s.data

/-- Helper for substring search: does `sub` occur as a contiguous block. -/
def infixAux (sub : List Char) : List Char → Bool
  | [] => isPrefixOfChars sub []
  | c :: cs => isPrefixOfChars sub (c :: cs) || infixAux sub cs

/-- Character-level model of `String.prototype.includes(sub)`. -/
def strContainsSubstr (s sub : String) : Bool := infixAux sub.data s.data

/-! ## Data model of `tradeValidator.ts` -/

/-- Trade side, the `side: 'buy' | 'sell'` union of the source. -/
inductive Side
  | buy
  | sell
deriving DecidableEq, Repr

/-- The `TradeRequest` interface: pair, side, amount, optional limit price. -/
structure TradeRequest where
  pair : String
  side : Side
  amount : ℚ
  price : Option ℚ
deriving DecidableEq, Repr

/-- Validator error messages. The source builds template strings; each
constructor stands for one template and carries every interpolated value, so
no information of the message is lost, only its surface text. -/
inductive VError
  | amountNotPositive
  | belowMinimum (amount minSize : ℚ) (pair : String)
  | insufficientPortfolioValue (required available : ℚ)
  | directUsdInsufficient (usdBalance : ℚ)
  | insufficientBaseBalance (base : String) (required available : ℚ)
  | insufficientBaseAdjusting (base : String) (adjusted : ℚ)
deriving DecidableEq, Repr

/-- The `TradeValidationResult` interface; absent optional fields are `none`. -/
structure TradeValidationResult where
  isValid : Bool
  error : Option VError := none
  adjustedAmount : Option ℚ := none
  requiredBalance : Option ℚ := none
  availableBalance : Option ℚ := none
deriving DecidableEq, Repr

/-- Default price table built in the `TradeValidator` constructor when no
price dictionary is supplied. -/
def defaultCryptoPrices : Table :=
  [("XBT", 45000), ("XXBT", 45000),
   ("ETH", 2500), ("XETH", 2500),
   ("XRP", 0.6), ("XXRP", 0.6),
   ("LTC", 100), ("XLTC", 100),
   ("ADA", 0.5), ("DOT", 7),
   ("USD", 1), ("ZUSD", 1)]

/-- The `minOrderSizes` table from the `TradeValidator` constructor. -/
def minOrderSizes : Table :=
  [("BTC/USD", 0.0001), ("ETH/USD", 0.001), ("XRP/USD", 1),
   ("LTC/USD", 0.01), ("ADA/USD", 10), ("DOT/USD", 0.1),
   ("XBTUSD", 0.0001), ("ETHUSD", 0.001), ("XRPUSD", 1),
   ("LTCUSD", 0.01), ("ADAUSD", 10), ("DOTUSD", 0.1)]

/-- The `maxOrderSizes` table from the constructor (never read by
`validateTrade`; kept for completeness of the data model). -/
def maxOrderSizes : Table :=
  [("BTC/USD", 0.9), ("ETH/USD", 0.9), ("XRP/USD", 0.9),
   ("LTC/USD", 0.9), ("ADA/USD", 0.9), ("DOT/USD", 0.9),
   ("XBTUSD", 0.9), ("ETHUSD", 0.9), ("XRPUSD", 0.9),
   ("LTCUSD", 0.9), ("ADAUSD", 0.9), ("DOTUSD", 0.9)]

/-- `normalizeCurrency`: alias table applied to the upper-cased code; unknown
codes pass through upper-cased. -/
def normalizeCurrency (currency : String) : String :=
  let u := strUpper currency
  if u = "BTC" then "XXBT"
  else if u = "BITCOIN" then "XXBT"
  else if u = "ETH" then "XETH"
  else if u = "ETHEREUM" then "XETH"
  else if u = "XRP" then "XXRP"
  else if u = "RIPPLE" then "XXRP"
  else if u = "LTC" then "XLTC"
  else if u = "LITECOIN" then "XLTC"
  else if u = "USD" then "ZUSD"
  else u

/-- `parsePair`: slash-delimited pairs split and normalize both sides; known
6-letter exchange codes use a fixed table; other codes ending in `USD` strip
the suffix; anything else passes through with `ZUSD` as quote. -/
def parsePair (pair : String) : String × String :=
  if strContainsChar pair '/' then
    match splitOnChar '/' pair.data with
    | base :: quote :: _ => (normalizeCurrency ⟨base⟩, normalizeCurrency ⟨quote⟩)
    | [base] => (normalizeCurrency ⟨base⟩, "ZUSD")
    | [] => (pair, "ZUSD")
  else if pair = "XBTUSD" then ("XXBT", "ZUSD")
  else if pair = "ETHUSD" then ("XETH", "ZUSD")
  else if pair = "XRPUSD" then ("XXRP", "ZUSD")
  else if pair = "LTCUSD" then ("XLTC", "ZUSD")
  else if pair = "ADAUSD" then ("ADA", "ZUSD")
  else if pair = "DOTUSD" then ("DOT", "ZUSD")
  else if strEndsWith pair "USD" then (normalizeCurrency (strDropRight pair 3), "ZUSD")
  else (pair, "ZUSD")

/-- `getMinOrderSize`: table lookup with JS default `|| 0.0001`. -/
def getMinOrderSize (pair : String) : ℚ := jsOrQ (lookupT minOrderSizes pair) 0.0001

/-- `getEstimatedPrice`: price of the normalized code, else of the raw code,
else 1, through the JS `||` chain. -/
def getEstimatedPrice (prices : Table) (currency : String) : ℚ :=
  jsOrQ (lookupT prices (normalizeCurrency currency)) (jsOrQ (lookupT prices currency) 1)

/-- `getTotalPortfolioValueInUsd`: sum of `balance * price` over entries with
positive parsed balance, pricing unknown assets at 1. -/
def getTotalPortfolioValueInUsd (balances prices : Table) : ℚ :=
  balances.foldl (fun acc p => if 0 < p.2 then acc + p.2 * jsOrQ (lookupT prices p.1) 1 else acc) 0

/-- The direct quote-currency balance read `parseFloat(balances[ZUSD] ||
balances[USD] || "0")` of the buy branch. -/
def usdBalanceOf (balances : Table) : ℚ :=
  match lookupT balances "ZUSD" with
  | some v => v
  | none => (lookupT balances "USD").getD 0

/-- Base asset of a request, first component of `parsePair`. -/
def baseCurrencyOf (trade : TradeRequest) : String := (parsePair trade.pair).1

/-- Parsed base-asset balance `parseFloat(balances[base] || "0")`. -/
def baseBalanceOf (balances : Table) (trade : TradeRequest) : ℚ :=
  (lookupT balances (baseCurrencyOf trade)).getD 0

/-- Estimated cost of a buy: `price ? amount * price : amount *
getEstimatedPrice(base)` with JS truthiness on the optional price. -/
def estimatedCost (prices : Table) (trade : TradeRequest) : ℚ :=
  match trade.price with
  | some p =>
    if p = 0 then trade.amount * getEstimatedPrice prices (baseCurrencyOf trade)
    else trade.amount * p
  | none => trade.amount * getEstimatedPrice prices (baseCurrencyOf trade)

/-- `TradeValidator.validateTrade`, branch for branch from the source:
positivity check, minimum-size check with the floor offered as correction,
then the buy portfolio/advisory checks or the sell balance check with the
5 percent buffered adjustment. -/
def validateTrade (balances prices : Table) (trade : TradeRequest) : TradeValidationResult :=
  if trade.amount ≤ 0 then
    { isValid := false, error := some .amountNotPositive }
  else if trade.amount < getMinOrderSize trade.pair then
    { isValid := false,
      error := some (.belowMinimum trade.amount (getMinOrderSize trade.pair) trade.pair),
      adjustedAmount := some (getMinOrderSize trade.pair) }
  else if trade.side = Side.buy then
    if getTotalPortfolioValueInUsd balances prices < estimatedCost prices trade then
      { isValid := false,
        error := some (.insufficientPortfolioValue (estimatedCost prices trade)
          (getTotalPortfolioValueInUsd balances prices)),
        requiredBalance := some (estimatedCost prices trade),
        availableBalance := some (getTotalPortfolioValueInUsd balances prices) }
    else if usdBalanceOf balances < estimatedCost prices trade then
      { isValid := true, error := some (.directUsdInsufficient (usdBalanceOf balances)) }
    else
      { isValid := true }
  else
    if baseBalanceOf balances trade < trade.amount then
      if max (baseBalanceOf balances trade * 0.95) (getMinOrderSize trade.pair) <
          getMinOrderSize trade.pair then
        { isValid := false,
          error := some (.insufficientBaseBalance (baseCurrencyOf trade) trade.amount
            (baseBalanceOf balances trade)),
          requiredBalance := some trade.amount,
          availableBalance := some (baseBalanceOf balances trade) }
      else
        { isValid := false,
          error := some (.insufficientBaseAdjusting (baseCurrencyOf trade)
            (max (baseBalanceOf balances trade * 0.95) (getMinOrderSize trade.pair))),
          adjustedAmount := some (max (baseBalanceOf balances trade * 0.95)
            (getMinOrderSize trade.pair)),
          requiredBalance := some trade.amount,
          availableBalance := some (baseBalanceOf balances trade) }
    else
      { isValid := true }

/-! ## Data model of `krakenService.ts`

The service object holds a balance cache and a price cache with millisecond
timestamps. Remote interactions are parameters: a `BalanceFetch` is the
response the balance endpoint would give, a `GatewayResult` the response of
the order endpoint, an `Option FeedData` the response of the price feed
(`none` models a thrown fetch failure). -/

/-- The `KrakenOrderRequest` interface. The `volume` string is modelled by
its parsed rational value; the mutation `order.volume =
adjusted.toString()` becomes an update of that field. -/
structure KrakenOrderRequest where
  pair : String
  type : Side
  ordertype : String
  volume : ℚ
  price : Option ℚ
deriving DecidableEq, Repr

/-- Mutable fields of the `KrakenService` object that the modelled methods
read or write. -/
structure KrakenState where
  cachedBalances : Table
  lastBalanceUpdate : ℕ
  cryptoPrices : Table
  lastPriceUpdate : ℕ
deriving DecidableEq, Repr

/-- `balanceUpdateInterval` (30 seconds, in milliseconds). -/
def balanceUpdateInterval : ℕ := 30000

/-- `priceUpdateInterval` (60 seconds, in milliseconds). -/
def priceUpdateInterval : ℕ := 60000

/-- Per-asset USD spot prices of a successful price-feed response; a missing
field models an absent `data.<asset>?.usd`. -/
structure FeedData where
  bitcoin : Option ℚ
  ethereum : Option ℚ
  ripple : Option ℚ
  litecoin : Option ℚ
  cardano : Option ℚ
  polkadot : Option ℚ
deriving DecidableEq, Repr

/-- Price table built from a successful feed response, with the per-asset
hardcoded defaults of the source applied through the JS `||`. -/
def pricesFromFeed (d : FeedData) : Table :=
  [("XBT", jsOrQ d.bitcoin 45000), ("XXBT", jsOrQ d.bitcoin 45000),
   ("ETH", jsOrQ d.ethereum 2500), ("XETH", jsOrQ d.ethereum 2500),
   ("XRP", jsOrQ d.ripple 0.6), ("XXRP", jsOrQ d.ripple 0.6),
   ("LTC", jsOrQ d.litecoin 100), ("XLTC", jsOrQ d.litecoin 100),
   ("ADA", jsOrQ d.cardano 0.5), ("DOT", jsOrQ d.polkadot 7),
   ("USD", 1), ("ZUSD", 1)]

/-- Fixed fallback price table assigned in the catch branch of
`initializeCryptoPrices`. -/
def fallbackCryptoPrices : Table :=
  [("XBT", 45000), ("XXBT", 45000),
   ("ETH", 2500), ("XETH", 2500),
   ("XRP", 0.6), ("XXRP", 0.6),
   ("LTC", 100), ("XLTC", 100),
   ("ADA", 0.5), ("DOT", 7),
   ("USD", 1), ("ZUSD", 1)]

/-- `initializeCryptoPrices`: on a feed response, store the fetched table and
stamp `lastPriceUpdate = Date.now()`; on a feed failure (the catch branch)
store the fallback table. The catch branch of the source does not touch
`lastPriceUpdate`. -/
def initializeCryptoPrices (feed : Option FeedData) (now : ℕ) (s : KrakenState) : KrakenState :=
  match feed with
  | some d => { s with cryptoPrices := pricesFromFeed d, lastPriceUpdate := now }
  | none => { s with cryptoPrices := fallbackCryptoPrices }

/-- `updateCryptoPricesIfNeeded`: refresh only when the cache age exceeds
`priceUpdateInterval`. The boolean records whether a feed fetch happened. -/
def updateCryptoPricesIfNeeded (feed : Option FeedData) (now : ℕ) (s : KrakenState) :
    KrakenState × Bool :=
  if priceUpdateInterval < now - s.lastPriceUpdate then
    (initializeCryptoPrices feed now s, true)
  else (s, false)

/-- Response of the remote balance endpoint: transport failure of the
function invocation, a Kraken-reported error array (first element), a reply
without a `result` field, or the balance dictionary. -/
inductive BalanceFetch
  | transportError (msg : String)
  | apiError (first : String)
  | noResult
  | success (balances : Table)
deriving DecidableEq, Repr

/-- Classification of a Kraken balance error by substring matching, mirroring
the `includes` chain of `getAccountBalance`; unmatched text is wrapped
verbatim. -/
def classifyBalanceError (e : String) : String :=
  if strContainsSubstr e "Invalid key" then "Invalid API key - check your credentials"
  else if strContainsSubstr e "Permission denied" then "API key lacks required permissions"
  else if strContainsSubstr e "Invalid signature" then "Invalid API signature - check your secret key"
  else if strContainsSubstr e "Invalid nonce" then "Invalid nonce - time synchronization issue"
  else "Kraken Error: " ++ e

/-- Outcome of one `getAccountBalance` call: the returned or thrown value,
the service state afterwards, and whether a remote fetch happened. -/
structure BalanceRead where
  result : Except String Table
  state : KrakenState
  fetched : Bool
deriving Repr

/-- `getAccountBalance`: serve the cache when it is nonempty and younger than
`balanceUpdateInterval`, otherwise fetch; a successful fetch replaces the
cache and stamps `lastBalanceUpdate = now`, a failed one throws and leaves
the state unchanged. -/
def getAccountBalance (fetch : BalanceFetch) (now : ℕ) (s : KrakenState) : BalanceRead :=
  if now - s.lastBalanceUpdate < balanceUpdateInterval ∧ s.cachedBalances ≠ [] then
    { result := .ok s.cachedBalances, state := s, fetched := false }
  else
    match fetch with
    | .transportError m =>
      { result := .error ("Function invocation failed: " ++ jsOrS m "Unknown error"),
        state := s, fetched := true }
    | .apiError e =>
      { result := .error (classifyBalanceError e), state := s, fetched := true }
    | .noResult =>
      { result := .error "No balance data received from Kraken", state := s, fetched := true }
    | .success b =>
      { result := .ok b,
        state := { s with cachedBalances := b, lastBalanceUpdate := now },
        fetched := true }

/-- Response of the remote order endpoint, with the same four shapes as the
balance endpoint. -/
inductive GatewayResult
  | transportError (msg : String)
  | apiError (first : String)
  | noResult
  | success (txid : String)
deriving DecidableEq, Repr

/-- Closed taxonomy of gateway business errors, one constructor per
`includes` branch of `placeOrder` plus the fall-through. -/
inductive ExchangeErrorKind
  | insufficientFunds
  | invalidArguments
  | orderMinimumNotMet
  | unknownAssetPair
  | invalidPrice
  | unclassified
deriving DecidableEq, Repr

/-- Classification of a Kraken order error by substring matching, returning
the branch taken and the exact message thrown there. The five recognized
phrases throw canonical messages; unmatched text is rethrown verbatim. -/
def classifyOrderError (e : String) : ExchangeErrorKind × String :=
  if strContainsSubstr e "Insufficient funds" then
    (.insufficientFunds, "Insufficient funds for this trade")
  else if strContainsSubstr e "Invalid arguments" then
    (.invalidArguments, "Invalid order parameters")
  else if strContainsSubstr e "Order minimum not met" then
    (.orderMinimumNotMet, "Order size below minimum requirement")
  else if strContainsSubstr e "Unknown asset pair" then
    (.unknownAssetPair, "Invalid trading pair")
  else if strContainsSubstr e "Invalid price" then
    (.invalidPrice, "Invalid price specified")
  else (.unclassified, e)

/-- `placeOrder`: returns the transaction id and invalidates the balance
cache (`lastBalanceUpdate = 0`) on success; on any failure the thrown message
is produced and the state is untouched (every throw happens before the
invalidation line). -/
def placeOrder (g : GatewayResult) (s : KrakenState) : Except String String × KrakenState :=
  match g with
  | .transportError m =>
    (.error ("Function invocation failed: " ++ jsOrS m "Unknown error"), s)
  | .apiError e => (.error (classifyOrderError e).2, s)
  | .noResult => (.error "No order result received from Kraken", s)
  | .success txid => (.ok txid, { s with lastBalanceUpdate := 0 })

/-- Response of `placeValidatedOrder` to its caller: a transaction id, the
`{error: [validation.error]}` object of a validation rejection, or the
`{error: [message]}` object built in the catch-all from a thrown message. -/
inductive OrderResponse
  | ok (txid : String)
  | validationError (e : Option VError)
  | caughtError (msg : String)
deriving Repr

/-- Everything observable after one `placeValidatedOrder` invocation: the
response, the caller-visible order object (the source mutates its `volume`
field in place), the service state, and how many times `placeOrder` ran. -/
structure ExecResult where
  response : OrderResponse
  order : KrakenOrderRequest
  state : KrakenState
  placeOrderCalls : ℕ
deriving Repr

/-- Pair conversion applied before validation: three known exchange codes
are rewritten to slash notation, everything else is passed through. -/
def toValidationPair (pair : String) : String :=
  if pair = "XBTUSD" then "BTC/USD"
  else if pair = "ETHUSD" then "ETH/USD"
  else if pair = "XRPUSD" then "XRP/USD"
  else pair

/-- The `TradeRequest` handed to the validator by `placeValidatedOrder`. -/
def validationRequest (order : KrakenOrderRequest) : TradeRequest :=
  { pair := toValidationPair order.pair, side := order.type,
    amount := order.volume, price := order.price }

/-- Shared tail of `placeValidatedOrder`: one `placeOrder` call whose thrown
message, if any, is caught and wrapped as `{error: [message]}`. -/
def submitOrder (g : GatewayResult) (o : KrakenOrderRequest) (s : KrakenState) : ExecResult :=
  match placeOrder g s with
  | (.ok txid, s2) => { response := .ok txid, order := o, state := s2, placeOrderCalls := 1 }
  | (.error m, s2) => { response := .caughtError m, order := o, state := s2, placeOrderCalls := 1 }

/-- `placeValidatedOrder`: refresh prices if stale, read balances (a throw is
caught and returned as an error response), validate; on an invalid verdict
with a positive `adjustedAmount` overwrite the order volume and revalidate
once; submit only when a validation passed. Balance-read failures are modelled
through `BalanceFetch`; the price refresh itself never throws. -/
def placeValidatedOrder (feed : Option FeedData) (bfetch : BalanceFetch) (g : GatewayResult)
    (now : ℕ) (order : KrakenOrderRequest) (s : KrakenState) : ExecResult :=
  let s1 := (updateCryptoPricesIfNeeded feed now s).1
  let read := getAccountBalance bfetch now s1
  match read.result with
  | .error m =>
    { response := .caughtError m, order := order, state := read.state, placeOrderCalls := 0 }
  | .ok balances =>
    let s2 := read.state
    let validation := validateTrade balances s2.cryptoPrices (validationRequest order)
    if validation.isValid then
      submitOrder g order s2
    else
      match validation.adjustedAmount with
      | some a =>
        if 0 < a then
          let order2 := { order with volume := a }
          let revalidation := validateTrade balances s2.cryptoPrices
            { validationRequest order with amount := a }
          if revalidation.isValid then
            submitOrder g order2 s2
          else
            { response := .validationError validation.error, order := order2,
              state := s2, placeOrderCalls := 0 }
        else
          { response := .validationError validation.error, order := order,
            state := s2, placeOrderCalls := 0 }
      | none =>
        { response := .validationError validation.error, order := order,
          state := s2, placeOrderCalls := 0 }

/-! ## Helper lemmas -/

/-- Characterization of the sell branch with insufficient base balance: the
buffered adjustment is never below the minimum size, so the verdict always
carries it. -/
lemma validateTrade_sell_insufficient (balances prices : Table) (t : TradeRequest)
    (hside : t.side = Side.sell) (hpos : 0 < t.amount)
    (hmin : getMinOrderSize t.pair ≤ t.amount)
    (hbal : baseBalanceOf balances t < t.amount) :
    validateTrade balances prices t =
      { isValid := false,
        error := some (.insufficientBaseAdjusting (baseCurrencyOf t)
          (max (baseBalanceOf balances t * 0.95) (getMinOrderSize t.pair))),
        adjustedAmount := some (max (baseBalanceOf balances t * 0.95) (getMinOrderSize t.pair)),
        requiredBalance := some t.amount,
        availableBalance := some (baseBalanceOf balances t) } := by
  have hnb : ¬ (t.side = Side.buy) := by
    rw [hside]
    exact fun h => Side.noConfusion h
  unfold validateTrade
  rw [if_neg (not_le.mpr hpos), if_neg (not_lt.mpr hmin), if_neg hnb, if_pos hbal,
    if_neg (not_lt.mpr (le_max_right _ _))]

/-- The order object returned by `submitOrder` is the one submitted. -/
lemma submitOrder_order (g : GatewayResult) (o : KrakenOrderRequest) (s : KrakenState) :
    (submitOrder g o s).order = o := by
  unfold submitOrder
  split <;> rfl

/-! ## Claims -/

/-- C1 (corrected: the claim as stated is false). Whenever `validateTrade`
returns an `adjustedAmount`, either the proposal was below the minimum order
size and the adjustment is that minimum (which lies strictly above the
requested amount), or the adjustment is the sell-side buffered amount, which
never exceeds the requested amount (equality is possible when the request
equals the minimum size). -/
theorem c1_adjusted_amount_bound (balances prices : Table) (t : TradeRequest) (a : ℚ)
    (h : (validateTrade balances prices t).adjustedAmount = some a) :
    (t.amount < getMinOrderSize t.pair ∧ a = getMinOrderSize t.pair) ∨ a ≤ t.amount := by
  unfold validateTrade at h
  by_cases h1 : t.amount ≤ 0
  · rw [if_pos h1] at h
    simp at h
  rw [if_neg h1] at h
  by_cases h2 : t.amount < getMinOrderSize t.pair
  · rw [if_pos h2] at h
    simp at h
    exact Or.inl ⟨h2, h.symm⟩
  rw [if_neg h2] at h
  by_cases h3 : t.side = Side.buy
  · rw [if_pos h3] at h
    by_cases h4 : getTotalPortfolioValueInUsd balances prices < estimatedCost prices t
    · rw [if_pos h4] at h
      simp at h
    rw [if_neg h4] at h
    by_cases h5 : usdBalanceOf balances < estimatedCost prices t
    · rw [if_pos h5] at h
      simp at h
    · rw [if_neg h5] at h
      simp at h
  rw [if_neg h3] at h
  by_cases h6 : baseBalanceOf balances t < t.amount
  · rw [if_pos h6] at h
    by_cases h7 : max (baseBalanceOf balances t * 0.95) (getMinOrderSize t.pair) <
        getMinOrderSize t.pair
    · rw [if_pos h7] at h
      simp at h
    · rw [if_neg h7] at h
      simp at h
      right
      rw [← h]
      have hamt : 0 < t.amount := not_le.mp h1
      apply max_le
      · nlinarith [h6, hamt]
      · exact not_lt.mp h2
  · rw [if_neg h6] at h
    simp at h

/-- C1 witness: the bound applied to a below-minimum buy of 0.00005 BTC/USD,
where the adjustment is the minimum size 0.0001. -/
theorem c1_witness :
    (validateTrade [] defaultCryptoPrices
        { pair := "BTC/USD", side := Side.buy, amount := 0.00005, price := none }).adjustedAmount
      = some 0.0001 ∧
    (((0.00005 : ℚ) < getMinOrderSize "BTC/USD" ∧ (0.0001 : ℚ) = getMinOrderSize "BTC/USD") ∨
      (0.0001 : ℚ) ≤ 0.00005) := by
  have hadj : (validateTrade [] defaultCryptoPrices
      { pair := "BTC/USD", side := Side.buy, amount := 0.00005, price := none }).adjustedAmount
      = some 0.0001 := by
    simp [validateTrade, getMinOrderSize, lookupT, jsOrQ, minOrderSizes]
    norm_num
  exact ⟨hadj, c1_adjusted_amount_bound [] defaultCryptoPrices _ 0.0001 hadj⟩

/-- C1 counterexample: for a buy of 0.00005 BTC/USD the verdict carries
`adjustedAmount = 0.0001`, which is not less than the proposed amount, so
the claimed strict reduction fails. -/
theorem c1_counterexample :
    (validateTrade [] defaultCryptoPrices
        { pair := "BTC/USD", side := Side.buy, amount := 0.00005, price := none }).adjustedAmount
      = some 0.0001 ∧
    ¬ ((0.0001 : ℚ) <
        ({ pair := "BTC/USD", side := Side.buy, amount := 0.00005, price := none } :
          TradeRequest).amount) := by
  constructor
  · simp [validateTrade, getMinOrderSize, lookupT, jsOrQ, minOrderSizes]
    norm_num
  · norm_num

/-- C2: a positive amount below the minimum order size of the pair (table
lookup, default 0.0001) yields an invalid verdict whose adjustment is exactly
that minimum size. -/
theorem c2_minimum_size_floor (balances prices : Table) (t : TradeRequest)
    (hpos : 0 < t.amount) (hmin : t.amount < getMinOrderSize t.pair) :
    validateTrade balances prices t =
      { isValid := false,
        error := some (.belowMinimum t.amount (getMinOrderSize t.pair) t.pair),
        adjustedAmount := some (getMinOrderSize t.pair) } := by
  unfold validateTrade
  rw [if_neg (not_le.mpr hpos), if_pos hmin]

/-- C2 witness: buy 0.00005 BTC/USD, below the 0.0001 floor. -/
theorem c2_witness :
    0 < (0.00005 : ℚ) ∧ (0.00005 : ℚ) < getMinOrderSize "BTC/USD" ∧
    validateTrade [] defaultCryptoPrices
        { pair := "BTC/USD", side := Side.buy, amount := 0.00005, price := none } =
      { isValid := false,
        error := some (.belowMinimum 0.00005 (getMinOrderSize "BTC/USD") "BTC/USD"),
        adjustedAmount := some (getMinOrderSize "BTC/USD") } := by
  have hm : (0.00005 : ℚ) < getMinOrderSize "BTC/USD" := by
    simp [getMinOrderSize, lookupT, jsOrQ, minOrderSizes]
    norm_num
  exact ⟨by norm_num, hm,
    c2_minimum_size_floor [] defaultCryptoPrices _ (by norm_num) hm⟩

/-- C3: a sell at or above the minimum size with insufficient base balance is
invalid with the buffered adjustment `max(balance * 0.95, minSize)` and
carries the requested amount and the held balance. -/
theorem c3_sell_insufficient_adjusts (balances prices : Table) (t : TradeRequest)
    (hside : t.side = Side.sell) (hpos : 0 < t.amount)
    (hmin : getMinOrderSize t.pair ≤ t.amount)
    (hbal : baseBalanceOf balances t < t.amount) :
    (validateTrade balances prices t).isValid = false ∧
    (validateTrade balances prices t).adjustedAmount =
      some (max (baseBalanceOf balances t * 0.95) (getMinOrderSize t.pair)) ∧
    (validateTrade balances prices t).requiredBalance = some t.amount ∧
    (validateTrade balances prices t).availableBalance = some (baseBalanceOf balances t) := by
  rw [validateTrade_sell_insufficient balances prices t hside hpos hmin hbal]
  exact ⟨rfl, rfl, rfl, rfl⟩

/-- C3 witness, scenario B of the spec: balances hold 0.02 XXBT, sell 0.05
XBTUSD, adjustment `max(0.02 * 0.95, 0.0001) = 0.019`. -/
theorem c3_witness :
    (validateTrade [("XXBT", 0.02)] defaultCryptoPrices
        { pair := "XBTUSD", side := Side.sell, amount := 0.05, price := none }).isValid
      = false ∧
    (validateTrade [("XXBT", 0.02)] defaultCryptoPrices
        { pair := "XBTUSD", side := Side.sell, amount := 0.05, price := none }).adjustedAmount
      = some 0.019 ∧
    (validateTrade [("XXBT", 0.02)] defaultCryptoPrices
        { pair := "XBTUSD", side := Side.sell, amount := 0.05, price := none }).requiredBalance
      = some 0.05 ∧
    (validateTrade [("XXBT", 0.02)] defaultCryptoPrices
        { pair := "XBTUSD", side := Side.sell, amount := 0.05, price := none }).availableBalance
      = some 0.02 := by
  have hb : baseBalanceOf [("XXBT", 0.02)]
      { pair := "XBTUSD", side := Side.sell, amount := 0.05, price := none } = 0.02 := by
    simp [baseBalanceOf, baseCurrencyOf, parsePair, strContainsChar, charMem, lookupT,
      normalizeCurrency, strUpper, splitOnChar]
  have hm : getMinOrderSize "XBTUSD" = 0.0001 := by
    simp [getMinOrderSize, lookupT, jsOrQ, minOrderSizes]
  have h := c3_sell_insufficient_adjusts [("XXBT", 0.02)] defaultCryptoPrices
    { pair := "XBTUSD", side := Side.sell, amount := 0.05, price := none }
    rfl (by norm_num)
    (by show getMinOrderSize "XBTUSD" ≤ (0.05 : ℚ); rw [hm]; norm_num)
    (by show baseBalanceOf _ _ < (0.05 : ℚ); rw [hb]; norm_num)
  refine ⟨h.1, ?_, h.2.2.1, ?_⟩
  · rw [h.2.1, hb]
    norm_num [hm, max_def]
  · rw [h.2.2.2, hb]

/-- C10: in the sell branch with insufficient balance the guard comparing the
buffered adjustment against the minimum size can never fire, because the
adjustment is a `max` with the minimum size as one argument; hence an
adjustment is always returned, even for a zero held balance. -/
theorem c10_sell_adjustment_always_present (balances prices : Table) (t : TradeRequest)
    (hside : t.side = Side.sell) (hpos : 0 < t.amount)
    (hmin : getMinOrderSize t.pair ≤ t.amount)
    (hbal : baseBalanceOf balances t < t.amount) :
    ¬ (max (baseBalanceOf balances t * 0.95) (getMinOrderSize t.pair) <
        getMinOrderSize t.pair) ∧
    (validateTrade balances prices t).adjustedAmount =
      some (max (baseBalanceOf balances t * 0.95) (getMinOrderSize t.pair)) ∧
    ((validateTrade balances prices t).adjustedAmount).isSome = true := by
  refine ⟨not_lt.mpr (le_max_right _ _), ?_, ?_⟩
  · rw [validateTrade_sell_insufficient balances prices t hside hpos hmin hbal]
  · rw [validateTrade_sell_insufficient balances prices t hside hpos hmin hbal]
    rfl

/-- C10 witness: a sell of 0.05 XBTUSD with no held balance at all still gets
an adjustment, namely the minimum size 0.0001. -/
theorem c10_witness :
    ¬ (max ((0 : ℚ) * 0.95) (getMinOrderSize "XBTUSD") < getMinOrderSize "XBTUSD") ∧
    (validateTrade [] defaultCryptoPrices
        { pair := "XBTUSD", side := Side.sell, amount := 0.05, price := none }).adjustedAmount
      = some 0.0001 ∧
    ((validateTrade [] defaultCryptoPrices
        { pair := "XBTUSD", side := Side.sell, amount := 0.05, price := none }).adjustedAmount).isSome
      = true := by
  have hb : baseBalanceOf []
      { pair := "XBTUSD", side := Side.sell, amount := 0.05, price := none } = 0 := by
    simp [baseBalanceOf, baseCurrencyOf, parsePair, strContainsChar, charMem, lookupT,
      normalizeCurrency, strUpper, splitOnChar]
  have hm : getMinOrderSize "XBTUSD" = 0.0001 := by
    simp [getMinOrderSize, lookupT, jsOrQ, minOrderSizes]
  have h := c10_sell_adjustment_always_present [] defaultCryptoPrices
    { pair := "XBTUSD", side := Side.sell, amount := 0.05, price := none }
    rfl (by norm_num)
    (by show getMinOrderSize "XBTUSD" ≤ (0.05 : ℚ); rw [hm]; norm_num)
    (by show baseBalanceOf _ _ < (0.05 : ℚ); rw [hb]; norm_num)
  refine ⟨?_, ?_, h.2.2⟩
  · have h1 := h.1
    rw [hb] at h1
    exact h1
  · rw [h.2.1, hb]
    norm_num [hm, max_def]

/-- C5 (corrected: the claim as stated is false). On a feed failure the
fallback table is installed, but `lastPriceUpdate` is left unchanged, so the
price cache is not marked fresh: a later `updateCryptoPricesIfNeeded` fetches
exactly when the time since the last successful update exceeds the refresh
interval, regardless of when the failure happened. -/
theorem c5_feed_failure_not_marked_fresh (now : ℕ) (s : KrakenState) :
    (initializeCryptoPrices none now s).cryptoPrices = fallbackCryptoPrices ∧
    (initializeCryptoPrices none now s).lastPriceUpdate = s.lastPriceUpdate ∧
    (∀ (feed : Option FeedData) (now2 : ℕ),
      (updateCryptoPricesIfNeeded feed now2 (initializeCryptoPrices none now s)).2 =
        decide (priceUpdateInterval < now2 - s.lastPriceUpdate)) := by
  refine ⟨rfl, rfl, ?_⟩
  intro feed now2
  unfold updateCryptoPricesIfNeeded initializeCryptoPrices
  by_cases h : priceUpdateInterval < now2 - s.lastPriceUpdate
  · simp [h]
  · simp [h]

/-- C5 counterexample: a feed failure at time 100000 over a never-refreshed
cache installs the fallback table but keeps the timestamp 0, and a read one
millisecond later, well within the refresh interval of the failure, performs
another feed fetch. -/
theorem c5_counterexample :
    (initializeCryptoPrices none 100000
        { cachedBalances := [], lastBalanceUpdate := 0,
          cryptoPrices := [], lastPriceUpdate := 0 }).cryptoPrices = fallbackCryptoPrices ∧
    (initializeCryptoPrices none 100000
        { cachedBalances := [], lastBalanceUpdate := 0,
          cryptoPrices := [], lastPriceUpdate := 0 }).lastPriceUpdate = 0 ∧
    100001 - 100000 < priceUpdateInterval ∧
    (updateCryptoPricesIfNeeded none 100001 (initializeCryptoPrices none 100000
        { cachedBalances := [], lastBalanceUpdate := 0,
          cryptoPrices := [], lastPriceUpdate := 0 })).2 = true := by
  refine ⟨rfl, rfl, by norm_num [priceUpdateInterval], ?_⟩
  simp [updateCryptoPricesIfNeeded, initializeCryptoPrices, priceUpdateInterval]

/-- C6: for a buy at or above the minimum size, the estimated cost is
`price * amount` for a truthy given price and `oracle price of base * amount`
otherwise; when the total portfolio USD value is below that cost the verdict
is invalid and reports cost and portfolio value. -/
theorem c6_buy_insufficient_portfolio (balances prices : Table) (t : TradeRequest)
    (hside : t.side = Side.buy) (hpos : 0 < t.amount)
    (hmin : getMinOrderSize t.pair ≤ t.amount)
    (hlow : getTotalPortfolioValueInUsd balances prices < estimatedCost prices t) :
    validateTrade balances prices t =
      { isValid := false,
        error := some (.insufficientPortfolioValue (estimatedCost prices t)
          (getTotalPortfolioValueInUsd balances prices)),
        requiredBalance := some (estimatedCost prices t),
        availableBalance := some (getTotalPortfolioValueInUsd balances prices) } ∧
    (∀ p, t.price = some p → p ≠ 0 → estimatedCost prices t = t.amount * p) ∧
    (t.price = none →
      estimatedCost prices t = t.amount * getEstimatedPrice prices (baseCurrencyOf t)) := by
  refine ⟨?_, ?_, ?_⟩
  · unfold validateTrade
    rw [if_neg (not_le.mpr hpos), if_neg (not_lt.mpr hmin), if_pos hside, if_pos hlow]
  · intro p hp hne
    unfold estimatedCost
    rw [hp]
    simp [hne]
  · intro hp
    unfold estimatedCost
    rw [hp]

/-- C6 witness, scenario A of the spec: balances hold 1000 ZUSD, buy 0.5
ETH/USD at price 2500, cost 1250 against portfolio value 1000. -/
theorem c6_witness :
    validateTrade [("ZUSD", 1000)] defaultCryptoPrices
        { pair := "ETH/USD", side := Side.buy, amount := 0.5, price := some 2500 } =
      { isValid := false,
        error := some (.insufficientPortfolioValue 1250 1000),
        requiredBalance := some 1250,
        availableBalance := some 1000 } := by
  have hc : estimatedCost defaultCryptoPrices
      { pair := "ETH/USD", side := Side.buy, amount := 0.5, price := some 2500 } = 1250 := by
    simp [estimatedCost]
    norm_num
  have hv : getTotalPortfolioValueInUsd [("ZUSD", 1000)] defaultCryptoPrices = 1000 := by
    simp [getTotalPortfolioValueInUsd, defaultCryptoPrices, lookupT, jsOrQ]
  have h := (c6_buy_insufficient_portfolio [("ZUSD", 1000)] defaultCryptoPrices
    { pair := "ETH/USD", side := Side.buy, amount := 0.5, price := some 2500 }
    rfl (by norm_num)
    (by simp [getMinOrderSize, lookupT, jsOrQ, minOrderSizes]; norm_num)
    (by rw [hc, hv]; norm_num)).1
  rw [h, hc, hv]

/-- C9 (corrected: the claim as stated is false). Classification of gateway
error text is substring matching; each recognized phrase throws its canonical
message (for `Insufficient funds` the message is `Insufficient funds for this
trade`, not the raw text itself), and unmatched text is rethrown verbatim,
never discarded. -/
theorem c9_error_classification (s : KrakenState) (e : String)
    (h1 : strContainsSubstr e "Insufficient funds" = false)
    (h2 : strContainsSubstr e "Invalid arguments" = false)
    (h3 : strContainsSubstr e "Order minimum not met" = false)
    (h4 : strContainsSubstr e "Unknown asset pair" = false)
    (h5 : strContainsSubstr e "Invalid price" = false) :
    classifyOrderError e = (ExchangeErrorKind.unclassified, e) ∧
    (placeOrder (.apiError e) s).1 = Except.error e ∧
    classifyOrderError "Insufficient funds" =
      (ExchangeErrorKind.insufficientFunds, "Insufficient funds for this trade") ∧
    (placeOrder (.apiError "Insufficient funds") s).1 =
      Except.error "Insufficient funds for this trade" := by
  have hcls : classifyOrderError e = (ExchangeErrorKind.unclassified, e) := by
    unfold classifyOrderError
    simp [h1, h2, h3, h4, h5]
  have hins : classifyOrderError "Insufficient funds" =
      (ExchangeErrorKind.insufficientFunds, "Insufficient funds for this trade") := by
    decide
  refine ⟨hcls, ?_, hins, ?_⟩
  · simp [placeOrder, hcls]
  · simp [placeOrder, hins]

/-- C9 witness: the classification applied to novel error text, which is
surfaced verbatim, alongside the recognized `Insufficient funds` phrase. -/
theorem c9_witness :
    classifyOrderError "EService:Unavailable" =
      (ExchangeErrorKind.unclassified, "EService:Unavailable") ∧
    (placeOrder (.apiError "EService:Unavailable")
        { cachedBalances := [], lastBalanceUpdate := 0,
          cryptoPrices := [], lastPriceUpdate := 0 }).1 =
      Except.error "EService:Unavailable" ∧
    classifyOrderError "Insufficient funds" =
      (ExchangeErrorKind.insufficientFunds, "Insufficient funds for this trade") ∧
    (placeOrder (.apiError "Insufficient funds")
        { cachedBalances := [], lastBalanceUpdate := 0,
          cryptoPrices := [], lastPriceUpdate := 0 }).1 =
      Except.error "Insufficient funds for this trade" :=
  c9_error_classification
    { cachedBalances := [], lastBalanceUpdate := 0,
      cryptoPrices := [], lastPriceUpdate := 0 }
    "EService:Unavailable" (by decide) (by decide) (by decide) (by decide) (by decide)

/-- C9 counterexample: for gateway error text `Insufficient funds` the
message carried by the rejection is the canonical phrase `Insufficient funds
for this trade`, which differs from the raw message the claim asserts. -/
theorem c9_counterexample :
    classifyOrderError "Insufficient funds" =
      (ExchangeErrorKind.insufficientFunds, "Insufficient funds for this trade") ∧
    "Insufficient funds for this trade" ≠ "Insufficient funds" := by
  constructor
  · decide
  · decide

/-- C7: a balance read over a stale or empty cache fetches and stamps the
cache, so a second read within the refresh interval serves the cache without
fetching; a successful order submission resets `lastBalanceUpdate` to 0; and
after that reset any read at a wall-clock instant at least one interval
after epoch (every real `Date.now()` value is) fetches again. -/
theorem c7_balance_cache_freshness :
    (∀ (s : KrakenState) (b : Table) (f2 : BalanceFetch) (now1 now2 : ℕ),
      (s.cachedBalances = [] ∨ balanceUpdateInterval ≤ now1 - s.lastBalanceUpdate) →
      b ≠ [] → now2 - now1 < balanceUpdateInterval →
      (getAccountBalance (.success b) now1 s).fetched = true ∧
      (getAccountBalance f2 now2 ((getAccountBalance (.success b) now1 s).state)).fetched
        = false ∧
      (getAccountBalance f2 now2 ((getAccountBalance (.success b) now1 s).state)).result
        = .ok b) ∧
    (∀ (txid : String) (s : KrakenState),
      ((placeOrder (.success txid) s).2).lastBalanceUpdate = 0) ∧
    (∀ (f : BalanceFetch) (now : ℕ) (s : KrakenState),
      s.lastBalanceUpdate = 0 → balanceUpdateInterval ≤ now →
      (getAccountBalance f now s).fetched = true) := by
  refine ⟨?_, ?_, ?_⟩
  · intro s b f2 now1 now2 hstale hb hwin
    have hcond : ¬ (now1 - s.lastBalanceUpdate < balanceUpdateInterval ∧
        s.cachedBalances ≠ []) := by
      rcases hstale with h | h
      · exact fun hc => hc.2 h
      · exact fun hc => absurd hc.1 (not_lt.mpr h)
    have hstate : (getAccountBalance (.success b) now1 s).state =
        { s with cachedBalances := b, lastBalanceUpdate := now1 } := by
      unfold getAccountBalance
      rw [if_neg hcond]
    refine ⟨?_, ?_, ?_⟩
    · unfold getAccountBalance
      rw [if_neg hcond]
    · rw [hstate]
      unfold getAccountBalance
      rw [if_pos ⟨hwin, hb⟩]
    · rw [hstate]
      unfold getAccountBalance
      rw [if_pos ⟨hwin, hb⟩]
  · intro txid s
    rfl
  · intro f now s h0 hge
    have hcond : ¬ (now - s.lastBalanceUpdate < balanceUpdateInterval ∧
        s.cachedBalances ≠ []) := by
      rw [h0]
      exact fun hc => absurd hc.1 (by omega)
    unfold getAccountBalance
    rw [if_neg hcond]
    cases f <;> rfl

/-- C7 witness: a fresh service fetches at time 100000, serves the cache one
millisecond later without fetching, the order success resets the stamp, and a
read at the reset stamp with the clock past one interval fetches. -/
theorem c7_witness :
    (getAccountBalance (.success [("XXBT", 1)]) 100000
        { cachedBalances := [], lastBalanceUpdate := 0,
          cryptoPrices := [], lastPriceUpdate := 0 }).fetched = true ∧
    (getAccountBalance .noResult 100001 ((getAccountBalance (.success [("XXBT", 1)]) 100000
        { cachedBalances := [], lastBalanceUpdate := 0,
          cryptoPrices := [], lastPriceUpdate := 0 }).state)).fetched = false ∧
    (getAccountBalance .noResult 100001 ((getAccountBalance (.success [("XXBT", 1)]) 100000
        { cachedBalances := [], lastBalanceUpdate := 0,
          cryptoPrices := [], lastPriceUpdate := 0 }).state)).result = .ok [("XXBT", 1)] ∧
    ((placeOrder (.success "TX")
        { cachedBalances := [("XXBT", 1)], lastBalanceUpdate := 100000,
          cryptoPrices := [], lastPriceUpdate := 0 }).2).lastBalanceUpdate = 0 ∧
    (getAccountBalance .noResult 30000
        { cachedBalances := [("XXBT", 1)], lastBalanceUpdate := 0,
          cryptoPrices := [], lastPriceUpdate := 0 }).fetched = true := by
  obtain ⟨h1, h2, h3⟩ := c7_balance_cache_freshness
  have ha := h1 ⟨[], 0, [], 0⟩ [("XXBT", 1)] .noResult 100000 100001
    (Or.inl rfl) (by simp) (by norm_num [balanceUpdateInterval])
  exact ⟨ha.1, ha.2.1, ha.2.2,
    h2 "TX" ⟨[("XXBT", 1)], 100000, [], 0⟩,
    h3 .noResult 30000 ⟨[("XXBT", 1)], 0, [], 0⟩ rfl (by norm_num [balanceUpdateInterval])⟩

/-- C4: one invocation of `placeValidatedOrder` calls `placeOrder` at most
once, whatever the inputs; and when the verdict is invalid with a positive
adjustment but the revalidation of the adjusted amount is invalid too, the
invocation ends with the first validation error and zero gateway calls. -/
theorem c4_at_most_one_gateway_call (feed : Option FeedData) (bfetch : BalanceFetch)
    (g : GatewayResult) (now : ℕ) (order : KrakenOrderRequest) (s : KrakenState) :
    (placeValidatedOrder feed bfetch g now order s).placeOrderCalls ≤ 1 ∧
    (∀ (balances : Table) (s2 : KrakenState) (fetched : Bool) (a : ℚ),
      getAccountBalance bfetch now (updateCryptoPricesIfNeeded feed now s).1 =
        { result := .ok balances, state := s2, fetched := fetched } →
      (validateTrade balances s2.cryptoPrices (validationRequest order)).isValid = false →
      (validateTrade balances s2.cryptoPrices (validationRequest order)).adjustedAmount
        = some a →
      0 < a →
      (validateTrade balances s2.cryptoPrices
          { validationRequest order with amount := a }).isValid = false →
      (placeValidatedOrder feed bfetch g now order s).placeOrderCalls = 0 ∧
      (placeValidatedOrder feed bfetch g now order s).response =
        OrderResponse.validationError
          (validateTrade balances s2.cryptoPrices (validationRequest order)).error) := by
  constructor
  · simp only [placeValidatedOrder]
    split
    · norm_num
    · split
      · simp only [submitOrder]
        split <;> norm_num
      · split
        · split
          · split
            · simp only [submitOrder]
              split <;> norm_num
            · norm_num
          · norm_num
        · norm_num
  · intro balances s2 fetched a hread hinv hadj hpos hreval
    simp only [placeValidatedOrder, hread]
    simp [hinv, hadj, hpos, hreval]

/-- C4 witness: a buy of 0.00005 BTC/USD over an empty account is adjusted to
the 0.0001 floor, the revalidation fails on portfolio value, and the
invocation ends with the original below-minimum error and zero gateway
calls. -/
theorem c4_witness :
    (placeValidatedOrder none (.success []) (.success "TX") 100000
        ⟨"BTC/USD", Side.buy, "market", 0.00005, some 2500⟩
        ⟨[], 0, [], 0⟩).placeOrderCalls = 0 ∧
    (placeValidatedOrder none (.success []) (.success "TX") 100000
        ⟨"BTC/USD", Side.buy, "market", 0.00005, some 2500⟩ ⟨[], 0, [], 0⟩).response =
      OrderResponse.validationError (some (VError.belowMinimum 0.00005 0.0001 "BTC/USD")) := by
  have hread : getAccountBalance (.success []) 100000
      (updateCryptoPricesIfNeeded none 100000 ⟨[], 0, [], 0⟩).1 =
      ⟨.ok [], ⟨[], 100000, fallbackCryptoPrices, 0⟩, true⟩ := by
    simp [updateCryptoPricesIfNeeded, initializeCryptoPrices, priceUpdateInterval,
      getAccountBalance, balanceUpdateInterval]
  have hinv : (validateTrade []
      ((⟨[], 100000, fallbackCryptoPrices, 0⟩ : KrakenState).cryptoPrices)
      (validationRequest ⟨"BTC/USD", Side.buy, "market", 0.00005, some 2500⟩)).isValid
      = false := by
    simp [validationRequest, toValidationPair, validateTrade, getMinOrderSize, lookupT,
      jsOrQ, minOrderSizes]
    norm_num
  have hadj : (validateTrade []
      ((⟨[], 100000, fallbackCryptoPrices, 0⟩ : KrakenState).cryptoPrices)
      (validationRequest ⟨"BTC/USD", Side.buy, "market", 0.00005, some 2500⟩)).adjustedAmount
      = some 0.0001 := by
    simp [validationRequest, toValidationPair, validateTrade, getMinOrderSize, lookupT,
      jsOrQ, minOrderSizes]
    norm_num
  have hreval : (validateTrade []
      ((⟨[], 100000, fallbackCryptoPrices, 0⟩ : KrakenState).cryptoPrices)
      { validationRequest ⟨"BTC/USD", Side.buy, "market", 0.00005, some 2500⟩ with
          amount := 0.0001 }).isValid = false := by
    simp [validationRequest, toValidationPair, validateTrade, getMinOrderSize, lookupT,
      jsOrQ, minOrderSizes, estimatedCost, getTotalPortfolioValueInUsd, baseCurrencyOf,
      parsePair, strContainsChar, charMem, normalizeCurrency, strUpper, splitOnChar]
    norm_num
  have herr : (validateTrade []
      ((⟨[], 100000, fallbackCryptoPrices, 0⟩ : KrakenState).cryptoPrices)
      (validationRequest ⟨"BTC/USD", Side.buy, "market", 0.00005, some 2500⟩)).error
      = some (.belowMinimum 0.00005 0.0001 "BTC/USD") := by
    simp [validationRequest, toValidationPair, validateTrade, getMinOrderSize, lookupT,
      jsOrQ, minOrderSizes]
    norm_num
  have h := (c4_at_most_one_gateway_call none (.success []) (.success "TX") 100000
      ⟨"BTC/USD", Side.buy, "market", 0.00005, some 2500⟩ ⟨[], 0, [], 0⟩).2
    [] ⟨[], 100000, fallbackCryptoPrices, 0⟩ true 0.0001 hread hinv hadj (by norm_num) hreval
  refine ⟨h.1, ?_⟩
  rw [h.2, herr]

/-- C8 (corrected: the claim as stated is false). When validation fails with
a positive adjusted amount, the executor overwrites the `volume` field of the
submitted order object in place with the adjusted amount, whatever the
revalidation outcome; only when the first validation passes does the caller
see the object unchanged. -/
theorem c8_order_mutated_in_place (feed : Option FeedData) (bfetch : BalanceFetch)
    (g : GatewayResult) (now : ℕ) (order : KrakenOrderRequest) (s : KrakenState) :
    (∀ (balances : Table) (s2 : KrakenState) (fetched : Bool) (a : ℚ),
      getAccountBalance bfetch now (updateCryptoPricesIfNeeded feed now s).1 =
        { result := .ok balances, state := s2, fetched := fetched } →
      (validateTrade balances s2.cryptoPrices (validationRequest order)).isValid = false →
      (validateTrade balances s2.cryptoPrices (validationRequest order)).adjustedAmount
        = some a →
      0 < a →
      (placeValidatedOrder feed bfetch g now order s).order = { order with volume := a }) ∧
    (∀ (balances : Table) (s2 : KrakenState) (fetched : Bool),
      getAccountBalance bfetch now (updateCryptoPricesIfNeeded feed now s).1 =
        { result := .ok balances, state := s2, fetched := fetched } →
      (validateTrade balances s2.cryptoPrices (validationRequest order)).isValid = true →
      (placeValidatedOrder feed bfetch g now order s).order = order) := by
  constructor
  · intro balances s2 fetched a hread hinv hadj hpos
    simp only [placeValidatedOrder, hread]
    simp [hinv, hadj, hpos]
    split <;> simp [submitOrder_order]
  · intro balances s2 fetched hread hvalid
    simp only [placeValidatedOrder, hread]
    simp [hvalid, submitOrder_order]

/-- C8 witness: selling 0.05 XBTUSD against a 0.02 XXBT balance rewrites the
volume field of the caller-supplied order to the adjusted 0.019. -/
theorem c8_witness :
    (placeValidatedOrder none (.success [("XXBT", 0.02)]) (.success "TX") 100000
        ⟨"XBTUSD", Side.sell, "market", 0.05, none⟩ ⟨[], 0, [], 0⟩).order =
      ⟨"XBTUSD", Side.sell, "market", 0.019, none⟩ := by
  have hread : getAccountBalance (.success [("XXBT", 0.02)]) 100000
      (updateCryptoPricesIfNeeded none 100000 ⟨[], 0, [], 0⟩).1 =
      ⟨.ok [("XXBT", 0.02)], ⟨[("XXBT", 0.02)], 100000, fallbackCryptoPrices, 0⟩, true⟩ := by
    simp [updateCryptoPricesIfNeeded, initializeCryptoPrices, priceUpdateInterval,
      getAccountBalance, balanceUpdateInterval]
  have hinv : (validateTrade [("XXBT", 0.02)]
      ((⟨[("XXBT", 0.02)], 100000, fallbackCryptoPrices, 0⟩ : KrakenState).cryptoPrices)
      (validationRequest ⟨"XBTUSD", Side.sell, "market", 0.05, none⟩)).isValid = false := by
    simp [validationRequest, toValidationPair, validateTrade, getMinOrderSize, lookupT,
      jsOrQ, minOrderSizes, baseBalanceOf, baseCurrencyOf, parsePair, strContainsChar,
      charMem, normalizeCurrency, strUpper, splitOnChar]
    norm_num
  have hadj : (validateTrade [("XXBT", 0.02)]
      ((⟨[("XXBT", 0.02)], 100000, fallbackCryptoPrices, 0⟩ : KrakenState).cryptoPrices)
      (validationRequest ⟨"XBTUSD", Side.sell, "market", 0.05, none⟩)).adjustedAmount
      = some 0.019 := by
    simp [validationRequest, toValidationPair, validateTrade, getMinOrderSize, lookupT,
      jsOrQ, minOrderSizes, baseBalanceOf, baseCurrencyOf, parsePair, strContainsChar,
      charMem, normalizeCurrency, strUpper, splitOnChar]
    norm_num [max_def]
  exact (c8_order_mutated_in_place none (.success [("XXBT", 0.02)]) (.success "TX") 100000
      ⟨"XBTUSD", Side.sell, "market", 0.05, none⟩ ⟨[], 0, [], 0⟩).1
    [("XXBT", 0.02)] ⟨[("XXBT", 0.02)], 100000, fallbackCryptoPrices, 0⟩ true 0.019
    hread hinv hadj (by norm_num)

/-- C8 counterexample: after the invocation the caller-supplied order object
carries volume 0.019, not the submitted 0.05 — the proposal was mutated in
place even though the trade went through. -/
theorem c8_counterexample :
    (placeValidatedOrder none (.success [("XXBT", 0.02)]) (.success "TX") 100000
        ⟨"XBTUSD", Side.sell, "market", 0.05, none⟩ ⟨[], 0, [], 0⟩).order.volume = 0.019 ∧
    (placeValidatedOrder none (.success [("XXBT", 0.02)]) (.success "TX") 100000
        ⟨"XBTUSD", Side.sell, "market", 0.05, none⟩ ⟨[], 0, [], 0⟩).response =
      OrderResponse.ok "TX" ∧
    ((0.019 : ℚ) ≠ 0.05) := by
  have hread : getAccountBalance (.success [("XXBT", 0.02)]) 100000
      (updateCryptoPricesIfNeeded none 100000 ⟨[], 0, [], 0⟩).1 =
      ⟨.ok [("XXBT", 0.02)], ⟨[("XXBT", 0.02)], 100000, fallbackCryptoPrices, 0⟩, true⟩ := by
    simp [updateCryptoPricesIfNeeded, initializeCryptoPrices, priceUpdateInterval,
      getAccountBalance, balanceUpdateInterval]
  have hinv : (validateTrade [("XXBT", 0.02)]
      ((⟨[("XXBT", 0.02)], 100000, fallbackCryptoPrices, 0⟩ : KrakenState).cryptoPrices)
      (validationRequest ⟨"XBTUSD", Side.sell, "market", 0.05, none⟩)).isValid = false := by
    simp [validationRequest, toValidationPair, validateTrade, getMinOrderSize, lookupT,
      jsOrQ, minOrderSizes, baseBalanceOf, baseCurrencyOf, parsePair, strContainsChar,
      charMem, normalizeCurrency, strUpper, splitOnChar]
    norm_num
  have hadj : (validateTrade [("XXBT", 0.02)]
      ((⟨[("XXBT", 0.02)], 100000, fallbackCryptoPrices, 0⟩ : KrakenState).cryptoPrices)
      (validationRequest ⟨"XBTUSD", Side.sell, "market", 0.05, none⟩)).adjustedAmount
      = some 0.019 := by
    simp [validationRequest, toValidationPair, validateTrade, getMinOrderSize, lookupT,
      jsOrQ, minOrderSizes, baseBalanceOf, baseCurrencyOf, parsePair, strContainsChar,
      charMem, normalizeCurrency, strUpper, splitOnChar]
    norm_num [max_def]
  have hreval : (validateTrade [("XXBT", 0.02)]
      ((⟨[("XXBT", 0.02)], 100000, fallbackCryptoPrices, 0⟩ : KrakenState).cryptoPrices)
      { validationRequest ⟨"XBTUSD", Side.sell, "market", 0.05, none⟩ with
          amount := 0.019 }).isValid = true := by
    simp [validationRequest, toValidationPair, validateTrade, getMinOrderSize, lookupT,
      jsOrQ, minOrderSizes, baseBalanceOf, baseCurrencyOf, parsePair, strContainsChar,
      charMem, normalizeCurrency, strUpper, splitOnChar]
    norm_num
  refine ⟨?_, ?_, by norm_num⟩
  · simp only [placeValidatedOrder, hread]
    simp [hinv, hadj, hreval, submitOrder, placeOrder]
    norm_num
  · simp only [placeValidatedOrder, hread]
    simp [hinv, hadj, hreval, submitOrder, placeOrder]
    norm_num

end CryptoTrading
